import Mathlib

/-!
Verification of the authentication/session subsystem of the
movies-list-microservices repository.

The JavaScript source is shallowly embedded below:
* `src/backend/src/redis-client.js` — the session store client
  (`setUserSession`, `getUserSession`, `deleteUserSession`).
* `src/unnamed/part_001` (security middleware) — `verifyToken`,
  `verifyPassword`, `generateToken`.
* `src/backend/src/server.js` — the `/api/auth/login` and
  `/api/auth/logout` routes.

Time is modelled as a natural number of seconds.  The external Redis
process is modelled by a `RedisState`: a reachability flag plus a map
from key strings to entries carrying an absolute expiry instant
(`setEx key 600 v` stores the entry with expiry `now + 600`; a `get`
at a time past the expiry sees the key as absent, which is exactly
Redis TTL semantics).  Connectivity failures make the underlying
client calls throw, which the source catches; the embedding mirrors
each `try/catch` explicitly.
-/

/-- A JavaScript runtime value, as far as the `users.is_admin` column is
concerned.  The users table declares `is_admin BOOLEAN`
(src/users-db/init.sql line 8), which the pg driver delivers to JS as a
boolean; the constructor for numbers is included because the source
compares this field against the number literal `1`. -/
inductive JsVal where
  | jsBool (b : Bool)
  | jsNum (n : Int)
deriving DecidableEq

/-- JS strict equality test `v === 1`.  Strict equality between values
of different runtime types is always `false`, so `true === 1` is
`false`. -/
def jsStrictEqOne : JsVal → Bool
  | .jsNum 1 => true
  | _ => false

/-- A row of the `users` table as returned by `database.findUser`
(SELECT * FROM users WHERE username = $1): the fields the auth
subsystem reads. -/
structure DbUser where
  username : String
  password : String
  is_admin : JsVal
deriving DecidableEq

/-- `database.findUser`: the first row whose username matches. -/
def findUser (db : List DbUser) (username : String) : Option DbUser :=
  db.find? (fun u => u.username = username)

/-- The `{username, isAdmin}` object the server stores in Redis at login
and attaches to `req.user` in `verifyToken`. -/
structure UserInfo where
  username : String
  isAdmin : Bool
deriving DecidableEq

/-- The decoded payload of a JWT produced by `jwt.sign`: the claims the
application embeds plus the `iat`/`exp` instants the library adds. -/
structure JwtPayload where
  username : String
  isAdmin : Bool
  iat : Nat
  exp : Nat
deriving DecidableEq

/-- config.JWT_EXPIRES = "10m" (src/backend/src/config.js line 4); the
jsonwebtoken library interprets this duration as 600 seconds. -/
def JWT_EXPIRES_SECONDS : Nat := 600

/-- `generateToken` (src/unnamed/part_001 lines 53-62), payload part:
`jwt.sign({username: user.username, isAdmin: user.is_admin === 1},
secret, {expiresIn: '10m'})` embeds the username, the result of the
strict comparison `user.is_admin === 1`, the issue instant and the
expiry instant ten minutes later. -/
def generateTokenPayload (user : DbUser) (now : Nat) : JwtPayload :=
  { username := user.username
    isAdmin := jsStrictEqOne user.is_admin
    iat := now
    exp := now + JWT_EXPIRES_SECONDS }

/-- Model of the string `jwt.sign` returns: an opaque serialization
determined by the payload and the signing secret.  Its internal format
is irrelevant to the claims; only that it is a header-safe string. -/
def jwtEncode (p : JwtPayload) (secret : String) : String :=
  "jwt:" ++ p.username ++ "." ++ (if p.isAdmin then "1" else "0") ++ "."
    ++ toString p.iat ++ "." ++ toString p.exp ++ "." ++ secret

/-- `generateToken`: the signed token string for a user record. -/
def generateToken (user : DbUser) (secret : String) (now : Nat) : String :=
  jwtEncode (generateTokenPayload user now) secret

/-- One Redis entry: the stored `{username, isAdmin}` value (the source
stores `JSON.stringify` of it and parses it back on read) together with
the absolute instant at which its TTL elapses. -/
structure SessionEntry where
  value : UserInfo
  expiresAt : Nat
deriving DecidableEq

/-- The state of the external Redis store: whether it is reachable
(client calls throw when it is not) and the key-value map. -/
structure RedisState where
  reachable : Bool
  store : String → Option SessionEntry

/-- The key under which `redis-client.js` files a session:
`` `session:${token}` ``. -/
def sessionKey (token : String) : String := "session:" ++ token

/-- `setUserSession` (src/backend/src/redis-client.js lines 27-35):
`setEx(session:<token>, 600, JSON.stringify(userData))` then `return
true`; any thrown error (store unreachable) is caught, logged, and
`false` is returned with the store unchanged. -/
def setUserSession (st : RedisState) (now : Nat) (token : String)
    (userData : UserInfo) : Bool × RedisState :=
  if st.reachable then
    (true,
      { st with
          store := fun k =>
            if k = sessionKey token then some { value := userData, expiresAt := now + 600 }
            else st.store k })
  else
    (false, st)

/-- `getUserSession` (src/backend/src/redis-client.js lines 37-45):
`get(session:<token>)`, parse the JSON if present, else `null`; any
thrown error (store unreachable) is caught, logged, and `null` is
returned — indistinguishable from an absent key. -/
def getUserSession (st : RedisState) (now : Nat) (token : String) :
    Option UserInfo :=
  if st.reachable then
    match st.store (sessionKey token) with
    | some e => if now < e.expiresAt then some e.value else none
    | none => none
  else
    none

/-- `deleteUserSession` (src/backend/src/redis-client.js lines 47-55):
`del(session:<token>)` then `return true` (deleting an absent key is
not an error); any thrown error is caught and `false` is returned with
the store unchanged. -/
def deleteUserSession (st : RedisState) (token : String) :
    Bool × RedisState :=
  if st.reachable then
    (true,
      { st with
          store := fun k => if k = sessionKey token then none else st.store k })
  else
    (false, st)

/-- Boolean prefix test on character lists (`as` begins `bs`). -/
def leadsWith : List Char → List Char → Bool
  | [], _ => true
  | _ :: _, [] => false
  | a :: as, b :: bs => a == b && leadsWith as bs

/-- JS `String.prototype.replace` with a string pattern: replace the
FIRST occurrence of `pat` by `rep`; if `pat` does not occur the string
is returned unchanged. -/
def replaceFirstChars (pat rep : List Char) : List Char → List Char
  | [] => []
  | c :: cs =>
    if leadsWith pat (c :: cs) then rep ++ (c :: cs).drop pat.length
    else c :: replaceFirstChars pat rep cs

/-- `authHeader.replace('Bearer ', '')` — the token extraction in
`verifyToken` (src/unnamed/part_001 line 10) and in the logout handler
(src/backend/src/server.js line 202). -/
def stripBearer (s : String) : String :=
  String.mk (replaceFirstChars "Bearer ".data [] s.data)

/-- `req.headers.authorization?.replace('Bearer ', '')`: `none` when the
header is absent (the JS value is then `undefined`). -/
def extractToken (authHeader : Option String) : Option String :=
  authHeader.map stripBearer

/-- Does `pat` occur anywhere in the list? -/
def hasOcc (pat : List Char) : List Char → Bool
  | [] => leadsWith pat []
  | c :: cs => leadsWith pat (c :: cs) || hasOcc pat cs

/-- Outcome of the `verifyToken` middleware: either a 401 JSON error
response sent before any handler runs, or `next()` with `req.user`
attached. -/
inductive AuthOutcome where
  | rejected (status : Nat) (errMsg : String)
  | authorized (user : UserInfo)
deriving DecidableEq

def AuthOutcome.isAuthorized : AuthOutcome → Bool
  | .authorized _ => true
  | .rejected _ _ => false

/-- `verifyToken` (src/unnamed/part_001 lines 8-36).  `verify` models
`fun t => jwt.verify(t, config.JWT_SECRET)` at the current instant:
`some payload` when signature and expiry validate, `none` when the
library throws (bad signature, expired, malformed).  The middleware:
strip the prefix; a missing or empty (falsy) token → 401 "Access token
required"; an absent session (including a collapsed store error) → 401
"Session expired or invalid"; a `jwt.verify` throw is caught → 401
"Invalid token"; otherwise `req.user := {username, isAdmin}` from the
decoded payload. -/
def verifyToken (verify : String → Option JwtPayload) (st : RedisState)
    (now : Nat) (authHeader : Option String) : AuthOutcome :=
  match extractToken authHeader with
  | none => .rejected 401 "Access token required"
  | some token =>
    if token = "" then .rejected 401 "Access token required"
    else
      match getUserSession st now token with
      | none => .rejected 401 "Session expired or invalid"
      | some _ =>
        match verify token with
        | none => .rejected 401 "Invalid token"
        | some decoded =>
          .authorized { username := decoded.username, isAdmin := decoded.isAdmin }

/-- A protected route: `verifyToken` runs first and, only if it calls
`next()`, the handler receives `req.user` and produces the response. -/
def runGuarded (verify : String → Option JwtPayload) (st : RedisState)
    (now : Nat) (authHeader : Option String)
    (handler : UserInfo → Nat × String) : Nat × String :=
  match verifyToken verify st now authHeader with
  | .authorized u => handler u
  | .rejected s m => (s, m)

/-- Does a live (unexpired) session marker for this exact token string
exist in the store's map right now?  Stated on the raw map, independent
of the client code path. -/
def sessionLive (st : RedisState) (now : Nat) (token : String) : Bool :=
  match st.store (sessionKey token) with
  | some e => decide (now < e.expiresAt)
  | none => false

/-- The whole backend state a request can touch: the users database and
the Redis session store.  The `verifyToken` middleware only ever reads
the `redis` component — it has no database access at all — which the
storage-independence theorem below makes explicit. -/
structure SystemState where
  db : List DbUser
  redis : RedisState

/-- The Session Guard as it runs inside the server process: it consults
only the session store and the token itself, never `sys.db`. -/
def guardSys (verify : String → Option JwtPayload) (sys : SystemState)
    (now : Nat) (authHeader : Option String) : AuthOutcome :=
  verifyToken verify sys.redis now authHeader

/-- The observable pieces of a `POST /api/auth/login` run
(src/backend/src/server.js lines 139-181): HTTP status, body message,
issued token and user object if any, the reason string recorded by
`logAuth` server-side on failure, and the resulting store state. -/
structure LoginResult where
  status : Nat
  message : String
  token : Option String
  user : Option UserInfo
  logReason : Option String
  redis : RedisState

/-- `POST /api/auth/login`: look up the user; unknown username → 401
with the generic message, log reason "User not found"; wrong password
(`compare` models `bcrypt.compare(plaintext, storedHash)`) → the SAME
401 generic message, log reason "Invalid password"; otherwise sign a
token, write the session marker (return value of `setUserSession` is
discarded, exactly as in the source) and answer 200 with the token. -/
def loginRoute (compare : String → String → Bool) (secret : String)
    (db : List DbUser) (st : RedisState) (now : Nat)
    (username password : String) : LoginResult :=
  match findUser db username with
  | none =>
    { status := 401, message := "please login with correct id and pass"
      token := none, user := none
      logReason := some "User not found", redis := st }
  | some user =>
    if compare password user.password then
      let token := generateToken user secret now
      let info : UserInfo :=
        { username := user.username, isAdmin := jsStrictEqOne user.is_admin }
      let res := setUserSession st now token info
      { status := 200, message := "Login successful"
        token := some token, user := some info
        logReason := none, redis := res.2 }
    else
      { status := 401, message := "please login with correct id and pass"
        token := none, user := none
        logReason := some "Invalid password", redis := st }

/-- The logout handler body (src/backend/src/server.js lines 200-208),
reached only after `verifyToken` has called `next()`: re-extract the
token from the header, delete the session marker (the returned boolean
is ignored) and answer 200.  When the guard has passed, the header is
present and the token non-empty, so the `getD` default is never used. -/
def logoutHandler (st : RedisState) (authHeader : Option String) :
    (Nat × String) × RedisState :=
  let token := (extractToken authHeader).getD ""
  let res := deleteUserSession st token
  ((200, "Logged out successfully"), res.2)

/-- `POST /api/auth/logout` end to end: the `verifyToken` middleware
runs first; a rejection is the response and leaves the store untouched;
otherwise the handler deletes the marker and reports success. -/
def logoutRoute (verify : String → Option JwtPayload) (st : RedisState)
    (now : Nat) (authHeader : Option String) : (Nat × String) × RedisState :=
  match verifyToken verify st now authHeader with
  | .rejected s m => ((s, m), st)
  | .authorized _ => logoutHandler st authHeader

/-- The events that write to the session store after some point in
time: logins (the only operation that ever inserts a session key),
logouts, and the store losing or regaining connectivity.  Guard checks
only read and are not represented. -/
inductive SysEvent where
  | loginEv (token : String) (info : UserInfo) (time : Nat)
  | logoutEv (token : String)
  | redisDown
  | redisUp
deriving DecidableEq

def applyEvent (st : RedisState) : SysEvent → RedisState
  | .loginEv tok info t => (setUserSession st t tok info).2
  | .logoutEv tok => (deleteUserSession st tok).2
  | .redisDown => { st with reachable := false }
  | .redisUp => { st with reachable := true }

def applyTrace (st : RedisState) (es : List SysEvent) : RedisState :=
  es.foldl applyEvent st

/-- A concrete `jwt.verify` model used by the closed example theorems:
exactly the string "tokA" verifies, decoding to alice's payload. -/
def verifyA : String → Option JwtPayload :=
  fun s => if s = "tokA" then some { username := "alice", isAdmin := false, iat := 0, exp := 600 } else none

/-- A concrete reachable store holding one live session for "tokA". -/
def stA : RedisState :=
  { reachable := true
    store := fun k =>
      if k = "session:tokA" then
        some { value := { username := "alice", isAdmin := false }, expiresAt := 600 }
      else none }

/-- A concrete non-admin user row used by the closed example theorems. -/
def userAlice : DbUser :=
  { username := "alice", password := "hashA", is_admin := JsVal.jsBool false }

/-- A concrete one-row users table. -/
def dbW : List DbUser := [userAlice]

/-- A concrete bcrypt.compare model: exactly the plaintext "pw" matches
the stored hash "hashA". -/
def compareW : String → String → Bool :=
  fun plain hash => plain == "pw" && hash == "hashA"

/-- A concrete unreachable store (every client call throws). -/
def stDown : RedisState := { reachable := false, store := fun _ => none }

/-- A concrete event trace containing a login for a different token, an
outage and a recovery — but no login for "tokA". -/
def esW : List SysEvent :=
  [SysEvent.loginEv "other" { username := "bob", isAdmin := false } 5,
   SysEvent.redisDown, SysEvent.redisUp]

/-- A second concrete store: the same session key "session:tokA" as in
`stA` but with DIFFERENT stored content, for the two-run comparison of
the storage-independence theorem. -/
def stB : RedisState :=
  { reachable := true
    store := fun k =>
      if k = "session:tokA" then
        some { value := { username := "mallory", isAdmin := true }, expiresAt := 600 }
      else none }

/-- A concrete verify oracle accepting exactly the string "xBearer y"
(a token that happens to contain "Bearer " in the middle). -/
def verifyC : String → Option JwtPayload :=
  fun s =>
    if s = "xBearer y" then
      some { username := "carol", isAdmin := false, iat := 0, exp := 600 }
    else none

/-- A concrete reachable store holding a live session for the token
"xBearer y". -/
def stC : RedisState :=
  { reachable := true
    store := fun k =>
      if k = "session:xBearer y" then
        some { value := { username := "carol", isAdmin := false }, expiresAt := 600 }
      else none }

/-! ### Helper lemmas -/

theorem leadsWith_append (pat x : List Char) : leadsWith pat (pat ++ x) = true := by
  induction pat with
  | nil => rfl
  | cons a as ih => simp [leadsWith, ih]

theorem replaceFirst_cancel (pat x : List Char) :
    replaceFirstChars pat [] (pat ++ x) = x := by
  cases pat with
  | nil =>
    cases x with
    | nil => rfl
    | cons c cs => simp [replaceFirstChars, leadsWith]
  | cons p ps =>
    have h := leadsWith_append (p :: ps) x
    rw [List.cons_append] at h
    simp [replaceFirstChars, h, List.drop_succ_cons, List.drop_left]

theorem stripBearer_bearer (t : String) : stripBearer ("Bearer " ++ t) = t := by
  unfold stripBearer
  rw [String.data_append, replaceFirst_cancel]

theorem extractToken_bearer (t : String) :
    extractToken (some ("Bearer " ++ t)) = some t := by
  simp [extractToken, stripBearer_bearer]

theorem replaceFirst_of_no_occ (pat rep : List Char) :
    ∀ s : List Char, hasOcc pat s = false → replaceFirstChars pat rep s = s := by
  intro s
  induction s with
  | nil => intro _; rfl
  | cons c cs ih =>
    intro h
    simp [hasOcc] at h
    simp [replaceFirstChars, h.1, ih h.2]

theorem sessionKey_inj {a b : String} (h : sessionKey a = sessionKey b) : a = b := by
  have hd : ("session:" ++ a).data = ("session:" ++ b).data := by
    unfold sessionKey at h
    exact congrArg String.data h
  rw [String.data_append, String.data_append] at hd
  have hdd := List.append_cancel_left hd
  cases a
  cases b
  simp_all

theorem jwtEncode_ne_empty (p : JwtPayload) (secret : String) :
    jwtEncode p secret ≠ "" := by
  intro h
  have hd := congrArg String.data h
  simp [jwtEncode, String.data_append,
    show "jwt:".data = ['j', 'w', 't', ':'] from rfl] at hd

theorem getUserSession_isSome (st : RedisState) (now : Nat) (t : String)
    (hre : st.reachable = true) :
    (getUserSession st now t).isSome = sessionLive st now t := by
  unfold getUserSession sessionLive
  rw [hre]
  cases hs : st.store (sessionKey t) with
  | none => rfl
  | some e => by_cases h : now < e.expiresAt <;> simp [h]

theorem getUserSession_none_of_absent (st : RedisState) (now : Nat) (t : String)
    (h : st.store (sessionKey t) = none) : getUserSession st now t = none := by
  unfold getUserSession
  by_cases hr : st.reachable <;> simp [hr, h]

theorem reachable_of_getUserSession_some {st : RedisState} {now : Nat}
    {t : String} {d : UserInfo} (h : getUserSession st now t = some d) :
    st.reachable = true := by
  unfold getUserSession at h
  by_cases hr : st.reachable
  · exact hr
  · simp [hr] at h

theorem getUserSession_none_mono (st : RedisState) (now now2 : Nat) (t : String)
    (hle : now ≤ now2) (h : getUserSession st now t = none) :
    getUserSession st now2 t = none := by
  unfold getUserSession at h ⊢
  by_cases hr : st.reachable
  · simp [hr] at h ⊢
    cases hs : st.store (sessionKey t) with
    | none => simp [hs]
    | some e =>
      simp [hs] at h ⊢
      omega
  · simp [hr]

theorem verifyToken_some (verify : String → Option JwtPayload) (st : RedisState)
    (now : Nat) (s : String) :
    verifyToken verify st now (some s) =
      (if stripBearer s = "" then .rejected 401 "Access token required"
       else
         match getUserSession st now (stripBearer s) with
         | none => .rejected 401 "Session expired or invalid"
         | some _ =>
           match verify (stripBearer s) with
           | none => .rejected 401 "Invalid token"
           | some decoded =>
             .authorized { username := decoded.username, isAdmin := decoded.isAdmin }) := by
  rfl

theorem verifyToken_bearer (verify : String → Option JwtPayload) (st : RedisState)
    (now : Nat) (t : String) (ht : t ≠ "") :
    verifyToken verify st now (some ("Bearer " ++ t)) =
      (match getUserSession st now t with
       | none => .rejected 401 "Session expired or invalid"
       | some _ =>
         match verify t with
         | none => .rejected 401 "Invalid token"
         | some decoded =>
           .authorized { username := decoded.username, isAdmin := decoded.isAdmin }) := by
  rw [verifyToken_some, stripBearer_bearer]
  simp [ht]

theorem applyTrace_cons (st : RedisState) (e : SysEvent) (es : List SysEvent) :
    applyTrace st (e :: es) = applyTrace (applyEvent st e) es := rfl

theorem trace_preserves_absence (tok : String) :
    ∀ (es : List SysEvent) (st : RedisState),
      st.store (sessionKey tok) = none →
      (∀ info time, SysEvent.loginEv tok info time ∉ es) →
      (applyTrace st es).store (sessionKey tok) = none := by
  intro es
  induction es with
  | nil => intro st h _; exact h
  | cons e rest ih =>
    intro st h hno
    rw [applyTrace_cons]
    refine ih (applyEvent st e) ?_ ?_
    · cases e with
      | loginEv tok2 info2 t2 =>
        have hne : sessionKey tok ≠ sessionKey tok2 := by
          intro hEq
          have : tok = tok2 := sessionKey_inj hEq
          exact hno info2 t2 (by rw [this]; exact List.mem_cons_self _ _)
        unfold applyEvent setUserSession
        by_cases hr : st.reachable <;> simp [hr, h, hne]
      | logoutEv tok2 =>
        unfold applyEvent deleteUserSession
        by_cases hr : st.reachable <;> simp [hr, h]
      | redisDown => exact h
      | redisUp => exact h
    · intro info time hmem
      exact hno info time (List.mem_cons_of_mem _ hmem)

/-! ### Claim theorems -/

/-- C1: for every request carrying a bearer token, while the session
store is reachable, the Session Guard (`verifyToken`) authorizes the
request if and only if a session marker for that exact token string
currently exists (live) in the store AND the token validates against
the signing secret (`verify` models `jwt.verify` with the process
secret at the current instant); if either condition fails the request
is answered 401 before any handler runs. -/
theorem verifyToken_authorizes_iff
    (verify : String → Option JwtPayload) (st : RedisState) (now : Nat)
    (t : String) (hre : st.reachable = true) (ht : t ≠ "") :
    ((verifyToken verify st now (some ("Bearer " ++ t))).isAuthorized
        = (sessionLive st now t && (verify t).isSome))
      ∧ (∀ handler : UserInfo → Nat × String,
          (sessionLive st now t && (verify t).isSome) = false →
          (runGuarded verify st now (some ("Bearer " ++ t)) handler).1 = 401) := by
  have hg := getUserSession_isSome st now t hre
  have hkey := verifyToken_bearer verify st now t ht
  constructor
  · rw [hkey]
    cases hget : getUserSession st now t with
    | none =>
      rw [hget] at hg
      simp only [Option.isSome_none] at hg
      cases hv : verify t <;> simp [AuthOutcome.isAuthorized, ← hg]
    | some d =>
      rw [hget] at hg
      simp only [Option.isSome_some] at hg
      cases hv : verify t <;> simp [AuthOutcome.isAuthorized, ← hg, hv]
  · intro handler hfail
    unfold runGuarded
    rw [hkey]
    cases hget : getUserSession st now t with
    | none => simp
    | some d =>
      rw [hget] at hg
      simp only [Option.isSome_some] at hg
      cases hv : verify t with
      | none => simp
      | some p =>
        rw [← hg, hv] at hfail
        simp at hfail

/-- C1 witness: the theorem applied to the concrete oracle `verifyA`,
store `stA`, instant 0 and token "tokA". -/
theorem verifyToken_authorizes_iff_witness :
    (stA.reachable = true ∧ "tokA" ≠ "") ∧
      (((verifyToken verifyA stA 0 (some ("Bearer " ++ "tokA"))).isAuthorized
          = (sessionLive stA 0 "tokA" && (verifyA "tokA").isSome))
        ∧ (∀ handler : UserInfo → Nat × String,
            (sessionLive stA 0 "tokA" && (verifyA "tokA").isSome) = false →
            (runGuarded verifyA stA 0 (some ("Bearer " ++ "tokA")) handler).1 = 401)) :=
  ⟨⟨rfl, by decide⟩, verifyToken_authorizes_iff verifyA stA 0 "tokA" rfl (by decide)⟩

/-- C2: the users schema declares `is_admin BOOLEAN`, so a privileged
row reaches `generateToken` with the JS boolean `true`; the source
computes the embedded role as `user.is_admin === 1`, and strict
equality between a boolean and the number 1 is `false`.  The issued
payload for a privileged user therefore embeds `isAdmin = false`
(contradicting the claim), while the username and the fixed 600-second
window (iat 0, exp 600) are embedded as described. -/
theorem generateToken_admin_embeds_false :
    generateTokenPayload
        { username := "alice", password := "hashA", is_admin := JsVal.jsBool true } 0
      = { username := "alice", isAdmin := false, iat := 0, exp := 600 } := rfl

/-- C3 counterexample: with the store `stA` holding a live session for
"tokA", the first logout answers 200, but a second logout presenting
the same token is rejected 401 ("Session expired or invalid") by the
Session Guard the logout route runs through — the second call does NOT
return success, refuting the claim as stated. -/
theorem logout_second_call_rejected_cex :
    (logoutRoute verifyA stA 0 (some "Bearer tokA")).1
        = (200, "Logged out successfully")
    ∧ (logoutRoute verifyA (logoutRoute verifyA stA 0 (some "Bearer tokA")).2 0
          (some "Bearer tokA")).1
        = (401, "Session expired or invalid") := by
  constructor <;> decide

/-- C3 amended: the logout HANDLER is idempotent and infallible — once
the guard has passed it always answers 200, and deleting the session
marker twice equals deleting it once (deleting an absent key is not an
error) — but a second full logout call presenting the same token is
rejected with HTTP 401 by the Session Guard (the session marker no
longer exists), not answered with success. -/
theorem logout_amended
    (verify : String → Option JwtPayload) (st : RedisState)
    (now now2 : Nat) (hdr : Option String) (tok : String)
    (hle : now ≤ now2) :
    (logoutHandler st hdr).1 = (200, "Logged out successfully")
    ∧ (deleteUserSession (deleteUserSession st tok).2 tok).2
        = (deleteUserSession st tok).2
    ∧ ((logoutRoute verify (logoutRoute verify st now hdr).2 now2 hdr).1).1 = 401 := by
  refine ⟨rfl, ?_, ?_⟩
  · by_cases hr : st.reachable
    · simp only [deleteUserSession, hr, if_true]
      congr 1
      funext k
      by_cases hk : k = sessionKey tok <;> simp [hk]
    · simp [deleteUserSession, hr]
  · rcases hdr with _ | s
    · simp [logoutRoute, verifyToken, extractToken]
    · by_cases ht : stripBearer s = ""
      · simp [logoutRoute, verifyToken_some, ht]
      · cases hget : getUserSession st now (stripBearer s) with
        | none =>
          have h2 := getUserSession_none_mono st now now2 (stripBearer s) hle hget
          simp [logoutRoute, verifyToken_some, ht, hget, h2]
        | some d =>
          cases hv : verify (stripBearer s) with
          | none =>
            cases hget2 : getUserSession st now2 (stripBearer s) with
            | none => simp [logoutRoute, verifyToken_some, ht, hget, hget2, hv]
            | some d2 => simp [logoutRoute, verifyToken_some, ht, hget, hget2, hv]
          | some p =>
            have hre : st.reachable = true := reachable_of_getUserSession_some hget
            have habs :
                ((deleteUserSession st (stripBearer s)).2).store
                    (sessionKey (stripBearer s)) = none := by
              simp [deleteUserSession, hre]
            have h2 :=
              getUserSession_none_of_absent (deleteUserSession st (stripBearer s)).2
                now2 (stripBearer s) habs
            simp [logoutRoute, verifyToken_some, ht, hget, hv, logoutHandler,
              extractToken, h2]

/-- C3 witness: the amended theorem applied at the concrete store `stA`,
oracle `verifyA`, header "Bearer tokA" and instants 0 ≤ 0. -/
theorem logout_amended_witness :
    (0 : Nat) ≤ 0 ∧
      ((logoutHandler stA (some "Bearer tokA")).1 = (200, "Logged out successfully")
      ∧ (deleteUserSession (deleteUserSession stA "tokA").2 "tokA").2
          = (deleteUserSession stA "tokA").2
      ∧ ((logoutRoute verifyA (logoutRoute verifyA stA 0 (some "Bearer tokA")).2 0
            (some "Bearer tokA")).1).1 = 401) :=
  ⟨Nat.le_refl 0,
    logout_amended verifyA stA 0 0 (some "Bearer tokA") "tokA" (Nat.le_refl 0)⟩

/-- C4: a login that fails because the username does not exist and a
login that fails because the password does not match the stored hash
produce responses with identical status (401), identical body message,
identical (absent) token and user object, and an unchanged store; only
the server-side log reason differs ("User not found" vs "Invalid
password"). -/
theorem login_failure_indistinguishable
    (compare : String → String → Bool) (secret : String) (db : List DbUser)
    (st : RedisState) (now : Nat) (u1 pw1 u2 pw2 : String) (usr : DbUser)
    (h1 : findUser db u1 = none)
    (h2 : findUser db u2 = some usr)
    (h3 : compare pw2 usr.password = false) :
    (loginRoute compare secret db st now u1 pw1).status
        = (loginRoute compare secret db st now u2 pw2).status
    ∧ (loginRoute compare secret db st now u1 pw1).message
        = (loginRoute compare secret db st now u2 pw2).message
    ∧ (loginRoute compare secret db st now u1 pw1).token
        = (loginRoute compare secret db st now u2 pw2).token
    ∧ (loginRoute compare secret db st now u1 pw1).user
        = (loginRoute compare secret db st now u2 pw2).user
    ∧ (loginRoute compare secret db st now u1 pw1).status = 401
    ∧ (loginRoute compare secret db st now u1 pw1).redis = st
    ∧ (loginRoute compare secret db st now u2 pw2).redis = st
    ∧ (loginRoute compare secret db st now u1 pw1).logReason = some "User not found"
    ∧ (loginRoute compare secret db st now u2 pw2).logReason = some "Invalid password" := by
  simp [loginRoute, h1, h2, h3]

/-- C4 witness: the theorem applied to the concrete table `dbW` (only
"alice" exists), an unknown username "bob", and a wrong password for
"alice". -/
theorem login_failure_indistinguishable_witness :
    (findUser dbW "bob" = none ∧ findUser dbW "alice" = some userAlice
      ∧ compareW "wrong" userAlice.password = false) ∧
      ((loginRoute compareW "sec" dbW stA 0 "bob" "x").status
          = (loginRoute compareW "sec" dbW stA 0 "alice" "wrong").status
      ∧ (loginRoute compareW "sec" dbW stA 0 "bob" "x").message
          = (loginRoute compareW "sec" dbW stA 0 "alice" "wrong").message
      ∧ (loginRoute compareW "sec" dbW stA 0 "bob" "x").token
          = (loginRoute compareW "sec" dbW stA 0 "alice" "wrong").token
      ∧ (loginRoute compareW "sec" dbW stA 0 "bob" "x").user
          = (loginRoute compareW "sec" dbW stA 0 "alice" "wrong").user
      ∧ (loginRoute compareW "sec" dbW stA 0 "bob" "x").status = 401
      ∧ (loginRoute compareW "sec" dbW stA 0 "bob" "x").redis = stA
      ∧ (loginRoute compareW "sec" dbW stA 0 "alice" "wrong").redis = stA
      ∧ (loginRoute compareW "sec" dbW stA 0 "bob" "x").logReason = some "User not found"
      ∧ (loginRoute compareW "sec" dbW stA 0 "alice" "wrong").logReason
          = some "Invalid password") :=
  ⟨⟨by decide, by decide, by decide⟩,
    login_failure_indistinguishable compareW "sec" dbW stA 0 "bob" "x" "alice" "wrong"
      userAlice (by decide) (by decide) (by decide)⟩

/-- C5: `getUserSession` collapses a connectivity failure into the very
same `null` it returns for an absent key: an UNREACHABLE store that
does hold a live marker for "t" and a reachable store WITHOUT the key
both produce `none`, so the caller cannot tell the two kinds apart —
the code contradicts the claimed distinct surfacing. -/
theorem getUserSession_collapses_failure :
    getUserSession
        { reachable := false
          store := fun k =>
            if k = "session:t" then
              some { value := { username := "alice", isAdmin := false }, expiresAt := 600 }
            else none } 0 "t"
      = none
    ∧ getUserSession { reachable := true, store := fun _ => none } 0 "t" = none :=
  ⟨rfl, rfl⟩

/-- C6: on every successful login against a reachable store, the
session write puts the marker under the key `session:<token>` (the
literal token string), with value `{username, isAdmin}` as computed at
login, an expiry exactly 600 seconds after the insertion instant,
overwrite semantics (the conclusion holds whatever the store previously
held at that key, and every other key is untouched), and no error
(`setUserSession` returns `true`). -/
theorem login_stores_session
    (compare : String → String → Bool) (secret : String) (db : List DbUser)
    (st : RedisState) (now : Nat) (username password : String) (usr : DbUser)
    (h1 : findUser db username = some usr)
    (h2 : compare password usr.password = true)
    (hre : st.reachable = true) :
    (loginRoute compare secret db st now username password).status = 200
    ∧ (loginRoute compare secret db st now username password).token
        = some (generateToken usr secret now)
    ∧ (loginRoute compare secret db st now username password).redis.store
          (sessionKey (generateToken usr secret now))
        = some { value := { username := usr.username, isAdmin := jsStrictEqOne usr.is_admin }
                 expiresAt := now + 600 }
    ∧ (∀ k, k ≠ sessionKey (generateToken usr secret now) →
        (loginRoute compare secret db st now username password).redis.store k
          = st.store k)
    ∧ (setUserSession st now (generateToken usr secret now)
          { username := usr.username, isAdmin := jsStrictEqOne usr.is_admin }).1
        = true := by
  refine ⟨?_, ?_, ?_, ?_, ?_⟩
  · simp [loginRoute, h1, h2]
  · simp [loginRoute, h1, h2]
  · simp [loginRoute, h1, h2, setUserSession, hre]
  · intro k hk
    simp [loginRoute, h1, h2, setUserSession, hre, hk]
  · simp [setUserSession, hre]

/-- C6 witness: the theorem applied to the concrete table `dbW`, the
matching credentials of "alice" and the reachable store `stA`. -/
theorem login_stores_session_witness :
    (findUser dbW "alice" = some userAlice
      ∧ compareW "pw" userAlice.password = true
      ∧ stA.reachable = true) ∧
      ((loginRoute compareW "sec" dbW stA 0 "alice" "pw").status = 200
      ∧ (loginRoute compareW "sec" dbW stA 0 "alice" "pw").token
          = some (generateToken userAlice "sec" 0)
      ∧ (loginRoute compareW "sec" dbW stA 0 "alice" "pw").redis.store
            (sessionKey (generateToken userAlice "sec" 0))
          = some { value := { username := userAlice.username
                              isAdmin := jsStrictEqOne userAlice.is_admin }
                   expiresAt := 0 + 600 }
      ∧ (∀ k, k ≠ sessionKey (generateToken userAlice "sec" 0) →
          (loginRoute compareW "sec" dbW stA 0 "alice" "pw").redis.store k
            = stA.store k)
      ∧ (setUserSession stA 0 (generateToken userAlice "sec" 0)
            { username := userAlice.username
              isAdmin := jsStrictEqOne userAlice.is_admin }).1 = true) :=
  ⟨⟨by decide, by decide, rfl⟩,
    login_stores_session compareW "sec" dbW stA 0 "alice" "pw" userAlice
      (by decide) (by decide) rfl⟩

/-- C7: the identity and role the Session Guard attaches come from the
decoded signed token only: two runs that differ arbitrarily in the
users database AND in the stored content of the (present) session
marker produce the same outcome, and on success the attached
`req.user` equals the decoded payload's username and role flag. -/
theorem guard_reads_token_only
    (verify : String → Option JwtPayload) (now : Nat) (t : String) (ht : t ≠ "")
    (db1 db2 : List DbUser) (st1 st2 : RedisState) (d1 d2 : UserInfo)
    (h1 : getUserSession st1 now t = some d1)
    (h2 : getUserSession st2 now t = some d2) :
    guardSys verify { db := db1, redis := st1 } now (some ("Bearer " ++ t))
        = guardSys verify { db := db2, redis := st2 } now (some ("Bearer " ++ t))
    ∧ (∀ p, verify t = some p →
        guardSys verify { db := db1, redis := st1 } now (some ("Bearer " ++ t))
          = .authorized { username := p.username, isAdmin := p.isAdmin }) := by
  unfold guardSys
  rw [verifyToken_bearer verify st1 now t ht, verifyToken_bearer verify st2 now t ht,
    h1, h2]
  constructor
  · rfl
  · intro p hp
    simp [hp]

/-- C7 witness: the theorem applied to the stores `stA` and `stB`,
whose markers for "tokA" hold different `{username, isAdmin}` content,
and to the databases `dbW` and `[]`. -/
theorem guard_reads_token_only_witness :
    ("tokA" ≠ ""
      ∧ getUserSession stA 0 "tokA" = some { username := "alice", isAdmin := false }
      ∧ getUserSession stB 0 "tokA" = some { username := "mallory", isAdmin := true }) ∧
      (guardSys verifyA { db := dbW, redis := stA } 0 (some ("Bearer " ++ "tokA"))
          = guardSys verifyA { db := [], redis := stB } 0 (some ("Bearer " ++ "tokA"))
      ∧ (∀ p, verifyA "tokA" = some p →
          guardSys verifyA { db := dbW, redis := stA } 0 (some ("Bearer " ++ "tokA"))
            = .authorized { username := p.username, isAdmin := p.isAdmin })) :=
  ⟨⟨by decide, by decide, by decide⟩,
    guard_reads_token_only verifyA 0 "tokA" (by decide) dbW [] stA stB
      { username := "alice", isAdmin := false }
      { username := "mallory", isAdmin := true } (by decide) (by decide)⟩

/-- C8: once a logout route call for a token completes with 200, every
later session-store lookup for that token returns absent and the
Session Guard rejects every later request presenting that token, no
matter what sequence of store-writing events (logins for other tokens,
further logouts, outages and recoveries) happens afterwards — only a
new login issuing the very same token string could reinsert it. -/
theorem logout_permanent
    (verify verify2 : String → Option JwtPayload) (st : RedisState)
    (now now2 : Nat) (tok : String) (es : List SysEvent)
    (h200 : (logoutRoute verify st now (some ("Bearer " ++ tok))).1.1 = 200)
    (hno : ∀ info time, SysEvent.loginEv tok info time ∉ es) :
    getUserSession
        (applyTrace (logoutRoute verify st now (some ("Bearer " ++ tok))).2 es)
        now2 tok
      = none
    ∧ verifyToken verify2
        (applyTrace (logoutRoute verify st now (some ("Bearer " ++ tok))).2 es)
        now2 (some ("Bearer " ++ tok))
      = .rejected 401 "Session expired or invalid" := by
  have ht : tok ≠ "" := by
    intro h
    rw [h] at h200
    simp [logoutRoute, verifyToken_some,
      show stripBearer "Bearer " = "" from by decide] at h200
  cases hget : getUserSession st now tok with
  | none => simp [logoutRoute, verifyToken_bearer verify st now tok ht, hget] at h200
  | some d =>
    cases hv : verify tok with
    | none => simp [logoutRoute, verifyToken_bearer verify st now tok ht, hget, hv] at h200
    | some p =>
      have hre : st.reachable = true := reachable_of_getUserSession_some hget
      have hroute :
          (logoutRoute verify st now (some ("Bearer " ++ tok))).2
            = (deleteUserSession st tok).2 := by
        simp [logoutRoute, verifyToken_bearer verify st now tok ht, hget, hv,
          logoutHandler, extractToken, stripBearer_bearer]
      have habs : ((deleteUserSession st tok).2).store (sessionKey tok) = none := by
        simp [deleteUserSession, hre]
      have hfinal :=
        trace_preserves_absence tok es (deleteUserSession st tok).2 habs hno
      have hnone :=
        getUserSession_none_of_absent
          (applyTrace (deleteUserSession st tok).2 es) now2 tok hfinal
      rw [hroute]
      refine ⟨hnone, ?_⟩
      rw [verifyToken_bearer verify2 _ now2 tok ht, hnone]

/-- C8 witness: the theorem applied to a completed logout of "tokA" on
`stA`, followed by the concrete trace `esW` (a login for a different
token, an outage and a recovery) and a later lookup at instant 7. -/
theorem logout_permanent_witness :
    ((logoutRoute verifyA stA 0 (some ("Bearer " ++ "tokA"))).1.1 = 200
      ∧ (∀ info time, SysEvent.loginEv "tokA" info time ∉ esW)) ∧
      (getUserSession
          (applyTrace (logoutRoute verifyA stA 0 (some ("Bearer " ++ "tokA"))).2 esW)
          7 "tokA"
        = none
      ∧ verifyToken verifyA
          (applyTrace (logoutRoute verifyA stA 0 (some ("Bearer " ++ "tokA"))).2 esW)
          7 (some ("Bearer " ++ "tokA"))
        = .rejected 401 "Session expired or invalid") :=
  ⟨⟨by decide, by intro info time hmem; simp [esW] at hmem⟩,
    logout_permanent verifyA verifyA stA 0 7 "tokA" esW (by decide)
      (by intro info time hmem; simp [esW] at hmem)⟩

/-- C9: with valid credentials but an unreachable session store, the
login route still answers 200 and hands out the signed token: the
store write fails inside `setUserSession` (which returns `false`, a
value the handler never inspects), the store is left unchanged, and the
Session Guard will reject that token with 401 on every use against
this store. -/
theorem login_succeeds_despite_store_down
    (compare : String → String → Bool) (secret : String) (db : List DbUser)
    (st : RedisState) (now : Nat) (username password : String) (usr : DbUser)
    (h1 : findUser db username = some usr)
    (h2 : compare password usr.password = true)
    (hdown : st.reachable = false) :
    (loginRoute compare secret db st now username password).status = 200
    ∧ (loginRoute compare secret db st now username password).token
        = some (generateToken usr secret now)
    ∧ (loginRoute compare secret db st now username password).redis = st
    ∧ (setUserSession st now (generateToken usr secret now)
          { username := usr.username, isAdmin := jsStrictEqOne usr.is_admin }).1
        = false
    ∧ (∀ (verify : String → Option JwtPayload) (now2 : Nat),
        verifyToken verify st now2 (some ("Bearer " ++ generateToken usr secret now))
          = .rejected 401 "Session expired or invalid") := by
  refine ⟨?_, ?_, ?_, ?_, ?_⟩
  · simp [loginRoute, h1, h2]
  · simp [loginRoute, h1, h2]
  · simp [loginRoute, h1, h2, setUserSession, hdown]
  · simp [setUserSession, hdown]
  · intro verify now2
    have ht : generateToken usr secret now ≠ "" :=
      jwtEncode_ne_empty (generateTokenPayload usr now) secret
    rw [verifyToken_bearer verify st now2 _ ht]
    have hnone : getUserSession st now2 (generateToken usr secret now) = none := by
      simp [getUserSession, hdown]
    rw [hnone]

/-- C9 witness: the theorem applied to alice's valid credentials and
the concrete unreachable store `stDown`. -/
theorem login_succeeds_despite_store_down_witness :
    (findUser dbW "alice" = some userAlice
      ∧ compareW "pw" userAlice.password = true
      ∧ stDown.reachable = false) ∧
      ((loginRoute compareW "sec" dbW stDown 0 "alice" "pw").status = 200
      ∧ (loginRoute compareW "sec" dbW stDown 0 "alice" "pw").token
          = some (generateToken userAlice "sec" 0)
      ∧ (loginRoute compareW "sec" dbW stDown 0 "alice" "pw").redis = stDown
      ∧ (setUserSession stDown 0 (generateToken userAlice "sec" 0)
            { username := userAlice.username
              isAdmin := jsStrictEqOne userAlice.is_admin }).1 = false
      ∧ (∀ (verify : String → Option JwtPayload) (now2 : Nat),
          verifyToken verify stDown now2
              (some ("Bearer " ++ generateToken userAlice "sec" 0))
            = .rejected 401 "Session expired or invalid")) :=
  ⟨⟨by decide, by decide, rfl⟩,
    login_succeeds_despite_store_down compareW "sec" dbW stDown 0 "alice" "pw"
      userAlice (by decide) (by decide) rfl⟩

/-- C10 counterexample: the header "xBearer y" does not start with
"Bearer ", yet the guard does NOT treat the entire header value as the
token — the first-occurrence replace strips the middle "Bearer " and
yields "xy".  Behaviorally, for the raw token "xBearer y" (store `stC`
holds its session and the oracle `verifyC` accepts it), sending it
WITH the prefix authorizes the request while sending it raw is
rejected, refuting both parts of the claim as universally stated. -/
theorem stripBearer_not_whole_header_cex :
    leadsWith "Bearer ".data "xBearer y".data = false
    ∧ stripBearer "xBearer y" = "xy"
    ∧ verifyToken verifyC stC 0 (some ("Bearer " ++ "xBearer y"))
        = .authorized { username := "carol", isAdmin := false }
    ∧ verifyToken verifyC stC 0 (some "xBearer y")
        = .rejected 401 "Session expired or invalid" := by
  refine ⟨?_, ?_, ?_, ?_⟩ <;> decide

/-- C10 amended: for every Authorization header value that does not
CONTAIN "Bearer " as a substring (rather than: does not start with it),
the entire header value is the token, and the guard treats such a raw
token exactly as if it had been sent with the "Bearer " prefix; in
general the strip removes the first occurrence of "Bearer " anywhere in
the header. -/
theorem stripBearer_amended (verify : String → Option JwtPayload)
    (st : RedisState) (now : Nat) (h : String)
    (hno : hasOcc "Bearer ".data h.data = false) :
    stripBearer h = h
    ∧ verifyToken verify st now (some h)
        = verifyToken verify st now (some ("Bearer " ++ h)) := by
  have hs : stripBearer h = h := by
    unfold stripBearer
    rw [replaceFirst_of_no_occ _ _ _ hno]
  refine ⟨hs, ?_⟩
  rw [verifyToken_some, verifyToken_some, hs, stripBearer_bearer]

/-- C10 witness: the amended theorem applied to the header "tokA"
(which does not contain "Bearer "), the oracle `verifyA` and the store
`stA`: raw and prefixed submissions coincide (both authorized). -/
theorem stripBearer_amended_witness :
    hasOcc "Bearer ".data "tokA".data = false ∧
      (stripBearer "tokA" = "tokA"
      ∧ verifyToken verifyA stA 0 (some "tokA")
          = verifyToken verifyA stA 0 (some ("Bearer " ++ "tokA"))) :=
  ⟨by decide, stripBearer_amended verifyA stA 0 "tokA" (by decide)⟩
